import Mathlib

/-!
Shallow embedding of the hexapod kinematics and gait core.

Source files embedded here:
  - `src/hexapod/gait.py` — `InverseKinematics.solve`, `GaitEngine.joint_angles_for_time`,
    `GaitEngine._phase_for_leg`;
  - `src/hexapod/web_controller.py` — `HexapodController.calculate_standing_pose`,
    `HexapodController.update_servos` (angle computation and servo fan-out);
  - `src/hexapod/web_runtime.py` — the heading-integration and normalization step of
    `RuntimeManager.gait_loop`.

Python floats are modelled as real numbers; `math.sqrt/sin/cos/atan2/acos` become
`Real.sqrt/sin/cos/arctan`-based functions; the float modulo `% 1.0` becomes `Int.fract`;
a raised `ValueError` becomes the `Except.error` branch of a total function.
-/

namespace Hexapod

noncomputable section

/-- `math.radians`: degrees to radians. -/
def radians (d : ℝ) : ℝ := d * Real.pi / 180

/-- `math.degrees`: radians to degrees. -/
def degrees (r : ℝ) : ℝ := r * 180 / Real.pi

/-- `math.atan2 y x` with the C convention for the quadrants and axes. -/
def atan2 (y x : ℝ) : ℝ :=
  if 0 < x then Real.arctan (y / x)
  else if x < 0 ∧ 0 ≤ y then Real.arctan (y / x) + Real.pi
  else if x < 0 ∧ y < 0 then Real.arctan (y / x) - Real.pi
  else if x = 0 ∧ 0 < y then Real.pi / 2
  else if x = 0 ∧ y < 0 then -(Real.pi / 2)
  else 0

/-- Leg geometry of `InverseKinematics.__init__` (gait.py): `L1 = coxa_len`,
`L2 = femur_len`, `L3 = tibia_len`. -/
structure InverseKinematics where
  L1 : ℝ
  L2 : ℝ
  L3 : ℝ

/-- The diagnostic payload of the `ValueError` raised by `InverseKinematics.solve`:
the message string carries the target, the computed reach `r`, `reach_min` and
`reach_max`. -/
structure UnreachableErr where
  target : ℝ × ℝ × ℝ
  r : ℝ
  reach_min : ℝ
  reach_max : ℝ

/-- The planar reach computed inside `InverseKinematics.solve`:
`r = sqrt((sqrt(x^2+y^2) - L1)^2 + z^2)`. -/
def reach_r (ik : InverseKinematics) (x y z : ℝ) : ℝ :=
  Real.sqrt ((Real.sqrt (x ^ 2 + y ^ 2) - ik.L1) ^ 2 + z ^ 2)

/-- `InverseKinematics.solve` (gait.py): returns `(coxa_deg, femur_deg, tibia_deg)`,
or the `Unreachable` error when the reach test fails. -/
def InverseKinematics.solve (ik : InverseKinematics) (x y z : ℝ) :
    Except UnreachableErr (ℝ × ℝ × ℝ) :=
  let coxa_rad := atan2 y x
  let coxa_deg := degrees coxa_rad
  let r_horiz := Real.sqrt (x ^ 2 + y ^ 2) - ik.L1
  let r_vert := z
  let r := Real.sqrt (r_horiz ^ 2 + r_vert ^ 2)
  let reach_min := |ik.L2 - ik.L3|
  let reach_max := ik.L2 + ik.L3
  if r < reach_min ∨ r > reach_max then
    Except.error ⟨(x, y, z), r, reach_min, reach_max⟩
  else
    let cos_tibia := (r ^ 2 - ik.L2 ^ 2 - ik.L3 ^ 2) / (2 * ik.L2 * ik.L3)
    let cos_tibia2 := max (-1) (min 1 cos_tibia)
    let tibia_internal_rad := Real.arccos cos_tibia2
    let target_angle_rad := atan2 r_vert r_horiz
    let k1 := ik.L2 + ik.L3 * Real.cos tibia_internal_rad
    let k2 := ik.L3 * Real.sin tibia_internal_rad
    let elbow_offset_rad := atan2 k2 k1
    let femur_rad := target_angle_rad + elbow_offset_rad
    let femur_deg := 90 + degrees femur_rad
    let tibia_relative_rad := Real.pi - tibia_internal_rad
    let tibia_deg := 90 + degrees tibia_relative_rad
    Except.ok (max 0 (min 180 coxa_deg), max 0 (min 180 femur_deg), max 0 (min 180 tibia_deg))

/-- `solve` raised `ValueError` (the `Unreachable` failure). -/
def InverseKinematics.solveFails (ik : InverseKinematics) (x y z : ℝ) : Prop :=
  ∃ e, ik.solve x y z = Except.error e

theorem solve_eq_of_unreachable (ik : InverseKinematics) (x y z : ℝ)
    (h : reach_r ik x y z < |ik.L2 - ik.L3| ∨ reach_r ik x y z > ik.L2 + ik.L3) :
    ik.solve x y z =
      Except.error ⟨(x, y, z), reach_r ik x y z, |ik.L2 - ik.L3|, ik.L2 + ik.L3⟩ := by
  rw [reach_r] at h
  simp only [InverseKinematics.solve]
  rw [if_pos h, reach_r]

theorem solveFails_iff (ik : InverseKinematics) (x y z : ℝ) :
    ik.solveFails x y z ↔
      reach_r ik x y z < |ik.L2 - ik.L3| ∨ ik.L2 + ik.L3 < reach_r ik x y z := by
  constructor
  · rintro ⟨e, he⟩
    by_contra hcon
    push_neg at hcon
    simp only [InverseKinematics.solve] at he
    rw [if_neg] at he
    · exact Except.noConfusion he
    · rw [reach_r] at hcon
      push_neg
      exact ⟨hcon.1, hcon.2⟩
  · intro h
    exact ⟨_, solve_eq_of_unreachable ik x y z h⟩

theorem solve_error_fields (ik : InverseKinematics) (x y z : ℝ) (e : UnreachableErr)
    (he : ik.solve x y z = Except.error e) :
    e = ⟨(x, y, z), reach_r ik x y z, |ik.L2 - ik.L3|, ik.L2 + ik.L3⟩ := by
  by_cases h : reach_r ik x y z < |ik.L2 - ik.L3| ∨ reach_r ik x y z > ik.L2 + ik.L3
  · rw [solve_eq_of_unreachable ik x y z h] at he
    exact (Except.error.inj he).symm
  · exfalso
    simp only [InverseKinematics.solve] at he
    rw [if_neg] at he
    · exact Except.noConfusion he
    · rw [reach_r] at h
      exact h

/-- The mutable step parameters of `GaitEngine` read by `joint_angles_for_time`
(gait.py): `step_height`, `step_length`, `cycle_time` and `turn_rate`. -/
structure GaitEngine where
  step_height : ℝ
  step_length : ℝ
  cycle_time : ℝ
  turn_rate : ℝ

/-- `GaitEngine._phase_for_leg` (gait.py): per-leg phase offset for a gait mode;
any unknown mode falls through to `0.0`. -/
def phase_for_leg (leg : ℕ) (mode : String) : ℝ :=
  if mode = "tripod" then (if leg = 0 ∨ leg = 2 ∨ leg = 4 then 0 else 0.5)
  else if mode = "wave" then (leg : ℝ) / 6
  else if mode = "ripple" then
    ([0, 0.25, 0.5, 0.75, 0.1, 0.6] : List ℝ).getD (leg % 6) 0
  else 0

/-- `lift_angle` as derived in `joint_angles_for_time`: `step_height` 10–50 mm
mapped linearly to 5–25 degrees, then clamped. -/
def lift_angle (g : GaitEngine) : ℝ :=
  max 5 (min 25 (5 + (g.step_height - 10) / 40 * 20))

/-- `base_swing_angle` as derived in `joint_angles_for_time`: `step_length`
10–80 mm mapped linearly to 3–15 degrees, then clamped. -/
def base_swing_angle (g : GaitEngine) : ℝ :=
  max 3 (min 15 (3 + (g.step_length - 10) / 70 * 12))

/-- Differential-steering `turn_modifier` of `joint_angles_for_time`: right legs
(0,1,2) get `1 - turn_rate*0.8`, left legs `1 + turn_rate*0.8`, clamped to `[0.1, 2.0]`. -/
def turn_modifier (g : GaitEngine) (leg : ℕ) : ℝ :=
  let raw := if leg = 0 ∨ leg = 1 ∨ leg = 2 then 1 - g.turn_rate * 0.8 else 1 + g.turn_rate * 0.8
  max 0.1 (min 2 raw)

/-- `swing_angle = base_swing_angle * turn_modifier` in `joint_angles_for_time`. -/
def swing_amplitude (g : GaitEngine) (leg : ℕ) : ℝ :=
  base_swing_angle g * turn_modifier g leg

/-- The body of the per-leg loop of `GaitEngine.joint_angles_for_time` (gait.py):
the `(coxa, femur, tibia)` triple for one leg at time `t`. -/
def leg_angles (g : GaitEngine) (t : ℝ) (mode : String) (leg : ℕ) : ℝ × ℝ × ℝ :=
  let phase := phase_for_leg leg mode
  let local_t := Int.fract (t / g.cycle_time + phase)
  let swing := local_t < 0.5
  let cycle_pos := if swing then local_t * 2 else (local_t - 0.5) * 2
  let swing_angle := swing_amplitude g leg
  let coxa := if swing then 90 + Real.sin (cycle_pos * Real.pi) * swing_angle
              else 90 - Real.sin (cycle_pos * Real.pi) * swing_angle
  let femur := if swing then 75 + Real.sin (cycle_pos * Real.pi) * lift_angle g else 67
  let tibia := if swing then 180 + Real.sin (cycle_pos * Real.pi) * (lift_angle g * 0.5) else 180
  (coxa, femur, tibia)

/-- `GaitEngine.joint_angles_for_time` (gait.py): the list of 6 per-leg angle triples. -/
def joint_angles_for_time (g : GaitEngine) (t : ℝ) (mode : String) : List (ℝ × ℝ × ℝ) :=
  (List.range 6).map (leg_angles g t mode)

/-- The fields of `HexapodController` (web_controller.py) read by
`calculate_standing_pose` and `update_servos`. `ik` is the embedded
`self.gait.ik` solver, `gait_time` is `self.gait.time`, and `mounts leg` is the
`(attach_x, attach_y)` pair the config provides for that leg (only legs 0–5 are
ever read). -/
structure Controller where
  running : Bool
  gait : GaitEngine
  gait_time : ℝ
  gait_mode : String
  ik : InverseKinematics
  heading : ℝ
  body_height : ℝ
  body_pitch : ℝ
  body_roll : ℝ
  body_yaw : ℝ
  leg_spread : ℝ
  mounts : ℕ → ℝ × ℝ

/-- `ground_level = -10.0` mm in `calculate_standing_pose`. -/
def ground_level : ℝ := -10

/-- `usable_reach = max_leg_reach * 0.85` in `calculate_standing_pose`. -/
def usable_reach (c : Controller) : ℝ := (c.ik.L2 + c.ik.L3) * 0.85

/-- The per-leg clamped `vertical_drop` of `calculate_standing_pose`: base drop plus
the tilt height offset, clamped to `[10, usable_reach * 0.95]`. -/
def vertical_drop (c : Controller) (leg : ℕ) : ℝ :=
  let base := c.body_height - ground_level
  let hoff := (c.mounts leg).1 * Real.sin (radians c.body_pitch) +
              (c.mounts leg).2 * Real.sin (radians c.body_roll)
  max 10 (min (base + hoff) (usable_reach c * 0.95))

/-- The per-leg `leg_horizontal` of `calculate_standing_pose`, with the
`0.3 * max_leg_reach` fallback branch taken when `vertical_drop >= usable_reach`. -/
def leg_horizontal (c : Controller) (leg : ℕ) : ℝ :=
  if vertical_drop c leg ≥ usable_reach c then (c.ik.L2 + c.ik.L3) * 0.3
  else Real.sqrt ((usable_reach c) ^ 2 - (vertical_drop c leg) ^ 2)

/-- The per-leg `leg_stance_width` of `calculate_standing_pose`:
`coxa_len + leg_horizontal * (leg_spread / 100)`. -/
def stance_width (c : Controller) (leg : ℕ) : ℝ :=
  c.ik.L1 + leg_horizontal c leg * (c.leg_spread / 100)

/-- One iteration of the leg loop of `calculate_standing_pose`: IK at
`(stance_width, 0, -vertical_drop)`; coxa is forced to `90 + body_yaw`; on
`Unreachable` the fixed fallback `(90 + body_yaw, 70, 90)` is substituted. -/
def standing_leg (c : Controller) (leg : ℕ) : ℝ × ℝ × ℝ :=
  match c.ik.solve (stance_width c leg) 0 (-(vertical_drop c leg)) with
  | Except.ok t => (90 + c.body_yaw, t.2.1, t.2.2)
  | Except.error _ => (90 + c.body_yaw, 70, 90)

/-- `HexapodController.calculate_standing_pose` (web_controller.py). -/
def calculate_standing_pose (c : Controller) : List (ℝ × ℝ × ℝ) :=
  (List.range 6).map (standing_leg c)

/-- One iteration of the fan-out loop of `update_servos`: the base triple (gait
when running, standing pose otherwise), `heading + body_yaw` added to the coxa,
and the walking-only clamped femur tilt adjustment. -/
def servo_triple (c : Controller) (leg : ℕ) : ℝ × ℝ × ℝ :=
  let base := if c.running then leg_angles c.gait c.gait_time c.gait_mode leg
              else standing_leg c leg
  let coxa_adjusted := base.1 + c.heading + c.body_yaw
  let femur :=
    if c.running then
      max 30 (min 150 (base.2.1 + (c.mounts leg).1 * Real.sin (radians c.body_pitch) * 0.3
                                + (c.mounts leg).2 * Real.sin (radians c.body_roll) * 0.3))
    else base.2.1
  (coxa_adjusted, femur, base.2.2)

/-- The list of 6 angle triples returned by `HexapodController.update_servos`
(web_controller.py); these are the values handed to the servo sink. -/
def update_servos (c : Controller) : List (ℝ × ℝ × ℝ) :=
  (List.range 6).map (servo_triple c)

/-- Angle sent for one `(leg, joint)` pair in the fan-out of `update_servos`:
joint 0 is the coxa, 1 the femur, 2 the tibia of that leg's triple. -/
def joint_angle (c : Controller) (leg j : ℕ) : ℝ :=
  if j = 0 then (servo_triple c leg).1
  else if j = 1 then (servo_triple c leg).2.1
  else (servo_triple c leg).2.2

/-- The `(leg, joint)` pairs for which `update_servos` actually calls
`servo.set_servo_angle`, given which calls raise. The `try` in the source wraps
the three sequential calls of one leg, so a failure aborts the remaining joints
of that leg only; the loop then continues with the next leg. -/
def attempted_pairs (fail : ℕ → ℕ → Bool) : List (ℕ × ℕ) :=
  (List.range 6).flatMap fun leg =>
    (leg, 0) :: if fail leg 0 then [] else (leg, 1) :: if fail leg 1 then [] else [(leg, 2)]

/-- The `(leg, joint, angle)` servo-sink calls performed by one `update_servos`
tick, given which calls raise: same structure as `attempted_pairs`, carrying
the angles from the (failure-independent) angle computation. -/
def servo_writes (c : Controller) (fail : ℕ → ℕ → Bool) : List (ℕ × ℕ × ℝ) :=
  (List.range 6).flatMap fun leg =>
    (leg, 0, (servo_triple c leg).1) ::
      if fail leg 0 then [] else
        (leg, 1, (servo_triple c leg).2.1) ::
          if fail leg 1 then [] else [(leg, 2, (servo_triple c leg).2.2)]

/-- The first `while` of the heading normalization in `RuntimeManager.gait_loop`
(web_runtime.py): subtract 360 while the heading exceeds 180. -/
def wrapDown (h : ℝ) : ℝ :=
  if h > 180 then wrapDown (h - 360) else h
termination_by (⌈(h - 180) / 360⌉).toNat
decreasing_by
  have h1 : (1 : ℤ) ≤ ⌈(h - 180) / 360⌉ := by
    apply Int.le_ceil_iff.mpr
    push_cast
    nlinarith
  have h2 : ⌈(h - 360 - 180) / 360⌉ = ⌈(h - 180) / 360⌉ - 1 := by
    rw [show (h - 360 - 180) / 360 = (h - 180) / 360 - 1 by ring]
    exact Int.ceil_sub_one _
  omega

/-- The second `while` of the heading normalization in `RuntimeManager.gait_loop`:
add 360 while the heading is below -180. -/
def wrapUp (h : ℝ) : ℝ :=
  if h < -180 then wrapUp (h + 360) else h
termination_by (⌈(-180 - h) / 360⌉).toNat
decreasing_by
  have h1 : (1 : ℤ) ≤ ⌈(-180 - h) / 360⌉ := by
    apply Int.le_ceil_iff.mpr
    push_cast
    nlinarith
  have h2 : ⌈(-180 - (h + 360)) / 360⌉ = ⌈(-180 - h) / 360⌉ - 1 := by
    rw [show (-180 - (h + 360)) / 360 = (-180 - h) / 360 - 1 by ring]
    exact Int.ceil_sub_one _
  omega

/-- Both normalization `while` loops of `RuntimeManager.gait_loop`, in source order. -/
def normalize_heading (h : ℝ) : ℝ := wrapUp (wrapDown h)

/-- The heading update of one `gait_loop` iteration (web_runtime.py): integrate
`rotation_speed * dt` and normalize, but only when `rotation_speed != 0`. -/
def tick_heading (h rs dt : ℝ) : ℝ :=
  if rs ≠ 0 then normalize_heading (h + rs * dt) else h

/-! Concrete instances used by witnesses and counterexamples. -/

/-- The leg geometry `(coxa, femur, tibia) = (30, 60, 80)` of the spec's IK
reachability example. -/
def ikTest : InverseKinematics := ⟨30, 60, 80⟩

/-- A gait engine with the constructor defaults of `GaitEngine()` in gait.py:
`step_height=30`, `step_length=40`, `cycle_time=1.0`, `turn_rate=0`. -/
def gTest : GaitEngine := ⟨30, 40, 1, 0⟩

/-- A standing controller with the default geometry `(15, 50, 55)` of config.py,
default body state except `heading = 10`. -/
def ctrlStand : Controller :=
  { running := false, gait := gTest, gait_time := 0, gait_mode := "tripod",
    ik := ⟨15, 50, 55⟩, heading := 10, body_height := 60, body_pitch := 0,
    body_roll := 0, body_yaw := 0, leg_spread := 100, mounts := fun _ => (0, 0) }

/-- A standing controller whose geometry `(20, 60, 40)`, `body_height = 30` and
`leg_spread = 150` put every leg's standing target out of reach. -/
def ctrlUnreach : Controller :=
  { running := false, gait := gTest, gait_time := 0, gait_mode := "tripod",
    ik := ⟨20, 60, 40⟩, heading := 0, body_height := 30, body_pitch := 0,
    body_roll := 0, body_yaw := 0, leg_spread := 150, mounts := fun _ => (0, 0) }

/-- A servo sink failure pattern: exactly the write for leg 0, joint 0 raises. -/
def failOne : ℕ → ℕ → Bool := fun l j => l == 0 && j == 0

/-! Helper lemmas. -/

theorem standing_leg_fst (c : Controller) (leg : ℕ) :
    (standing_leg c leg).1 = 90 + c.body_yaw := by
  unfold standing_leg
  split <;> rfl

theorem update_servos_getElem (c : Controller) (leg : ℕ) (h : leg < 6) :
    (update_servos c)[leg]? = some (servo_triple c leg) := by
  rw [update_servos, List.getElem?_map, List.getElem?_range h]
  rfl

theorem calculate_standing_pose_getElem (c : Controller) (leg : ℕ) (h : leg < 6) :
    (calculate_standing_pose c)[leg]? = some (standing_leg c leg) := by
  rw [calculate_standing_pose, List.getElem?_map, List.getElem?_range h]
  rfl

theorem attempted_block_mem (fail : ℕ → ℕ → Bool) (l j leg : ℕ) :
    (l, j) ∈ ((leg, 0) :: if fail leg 0 then [] else
        (leg, 1) :: if fail leg 1 then [] else [(leg, 2)]) ↔
      l = leg ∧ (j = 0 ∨ (j = 1 ∧ fail leg 0 = false) ∨
        (j = 2 ∧ fail leg 0 = false ∧ fail leg 1 = false)) := by
  cases h0 : fail leg 0 <;> cases h1 : fail leg 1 <;> simp [Prod.ext_iff] <;> tauto

theorem mem_attempted_pairs (fail : ℕ → ℕ → Bool) (l j : ℕ) :
    (l, j) ∈ attempted_pairs fail ↔
      l < 6 ∧ (j = 0 ∨ (j = 1 ∧ fail l 0 = false) ∨
        (j = 2 ∧ fail l 0 = false ∧ fail l 1 = false)) := by
  unfold attempted_pairs
  rw [List.mem_flatMap]
  constructor
  · rintro ⟨leg, hleg, hmem⟩
    rw [List.mem_range] at hleg
    obtain ⟨rfl, hj⟩ := (attempted_block_mem fail l j leg).mp hmem
    exact ⟨hleg, hj⟩
  · rintro ⟨hl, hj⟩
    exact ⟨l, List.mem_range.mpr hl, (attempted_block_mem fail l j l).mpr ⟨rfl, hj⟩⟩

theorem servo_writes_eq_map (c : Controller) (fail : ℕ → ℕ → Bool) :
    servo_writes c fail =
      (attempted_pairs fail).map (fun p => (p.1, p.2, joint_angle c p.1 p.2)) := by
  unfold servo_writes attempted_pairs
  rw [List.map_flatMap]
  apply List.flatMap_congr
  intro leg _
  cases h0 : fail leg 0 <;> cases h1 : fail leg 1 <;> simp [joint_angle]

theorem mem_servo_writes (c : Controller) (fail : ℕ → ℕ → Bool) (l j : ℕ) :
    (l, j, joint_angle c l j) ∈ servo_writes c fail ↔ (l, j) ∈ attempted_pairs fail := by
  rw [servo_writes_eq_map, List.mem_map]
  constructor
  · rintro ⟨p, hp, hep⟩
    rw [Prod.ext_iff] at hep
    have hp1 : p.1 = l := hep.1
    have hp2 : p.2 = j := (Prod.ext_iff.mp hep.2).1
    rwa [show p = (l, j) from Prod.ext hp1 hp2] at hp
  · intro hp
    exact ⟨(l, j), hp, rfl⟩

theorem wrapDown_le (x : ℝ) : wrapDown x ≤ 180 := by
  by_cases h : x > 180
  · rw [wrapDown, if_pos h]
    exact wrapDown_le (x - 360)
  · rw [wrapDown, if_neg h]
    exact not_lt.mp h
termination_by (⌈(x - 180) / 360⌉).toNat
decreasing_by
  have h1 : (1 : ℤ) ≤ ⌈(x - 180) / 360⌉ := by
    apply Int.le_ceil_iff.mpr
    push_cast
    nlinarith
  have h2 : ⌈(x - 360 - 180) / 360⌉ = ⌈(x - 180) / 360⌉ - 1 := by
    rw [show (x - 360 - 180) / 360 = (x - 180) / 360 - 1 by ring]
    exact Int.ceil_sub_one _
  omega

theorem wrapUp_ge (x : ℝ) : -180 ≤ wrapUp x := by
  by_cases h : x < -180
  · rw [wrapUp, if_pos h]
    exact wrapUp_ge (x + 360)
  · rw [wrapUp, if_neg h]
    exact not_lt.mp h
termination_by (⌈(-180 - x) / 360⌉).toNat
decreasing_by
  have h1 : (1 : ℤ) ≤ ⌈(-180 - x) / 360⌉ := by
    apply Int.le_ceil_iff.mpr
    push_cast
    nlinarith
  have h2 : ⌈(-180 - (x + 360)) / 360⌉ = ⌈(-180 - x) / 360⌉ - 1 := by
    rw [show (-180 - (x + 360)) / 360 = (-180 - x) / 360 - 1 by ring]
    exact Int.ceil_sub_one _
  omega

theorem wrapUp_le (x : ℝ) (hx : x ≤ 180) : wrapUp x ≤ 180 := by
  by_cases h : x < -180
  · rw [wrapUp, if_pos h]
    exact wrapUp_le (x + 360) (by linarith)
  · rw [wrapUp, if_neg h]
    exact hx
termination_by (⌈(-180 - x) / 360⌉).toNat
decreasing_by
  have h1 : (1 : ℤ) ≤ ⌈(-180 - x) / 360⌉ := by
    apply Int.le_ceil_iff.mpr
    push_cast
    nlinarith
  have h2 : ⌈(-180 - (x + 360)) / 360⌉ = ⌈(-180 - x) / 360⌉ - 1 := by
    rw [show (-180 - (x + 360)) / 360 = (-180 - x) / 360 - 1 by ring]
    exact Int.ceil_sub_one _
  omega

theorem solve_ok_fst (ik : InverseKinematics) (x y z : ℝ) (t : ℝ × ℝ × ℝ)
    (ht : ik.solve x y z = Except.ok t) :
    t.1 = max 0 (min 180 (degrees (atan2 y x))) := by
  by_cases h : reach_r ik x y z < |ik.L2 - ik.L3| ∨ reach_r ik x y z > ik.L2 + ik.L3
  · rw [solve_eq_of_unreachable ik x y z h] at ht
    exact Except.noConfusion ht
  · simp only [InverseKinematics.solve] at ht
    rw [if_neg] at ht
    · rw [← Except.ok.inj ht]
    · rw [reach_r] at h
      exact h

/-! Claim theorems. -/

/-- C1: `InverseKinematics.solve` raises `Unreachable` exactly when the planar reach
`r = sqrt((sqrt(x^2+y^2) - L1)^2 + z^2)` lies outside `[|L2-L3|, L2+L3]`, and the error
carries the target, `r`, `reach_min` and `reach_max`; concretely, for geometry
`(30, 60, 80)`, `solve(100, 0, -80)` succeeds with `|coxa_deg| < 5`, while
`solve(500, 0, -80)` and `solve(25, 0, 0)` both raise `Unreachable`. -/
theorem C1_solve_unreachable_iff :
    (∀ (ik : InverseKinematics) (x y z : ℝ), 0 < ik.L2 → 0 < ik.L3 →
      (ik.solveFails x y z ↔
        reach_r ik x y z < |ik.L2 - ik.L3| ∨ ik.L2 + ik.L3 < reach_r ik x y z)) ∧
    (∀ (ik : InverseKinematics) (x y z : ℝ) (e : UnreachableErr),
      ik.solve x y z = Except.error e →
      e = ⟨(x, y, z), reach_r ik x y z, |ik.L2 - ik.L3|, ik.L2 + ik.L3⟩) ∧
    (∃ cx f tb, ikTest.solve 100 0 (-80) = Except.ok (cx, f, tb) ∧ |cx| < 5) ∧
    ikTest.solveFails 500 0 (-80) ∧
    ikTest.solveFails 25 0 0 := by
  have hr1 : reach_r ikTest 100 0 (-80) = Real.sqrt 11300 := by
    rw [reach_r]
    rw [show ((100 : ℝ) ^ 2 + 0 ^ 2) = 100 ^ 2 by norm_num,
        Real.sqrt_sq (by norm_num : (0 : ℝ) ≤ 100)]
    norm_num [ikTest]
  have hr2 : reach_r ikTest 500 0 (-80) = Real.sqrt 227300 := by
    rw [reach_r]
    rw [show ((500 : ℝ) ^ 2 + 0 ^ 2) = 500 ^ 2 by norm_num,
        Real.sqrt_sq (by norm_num : (0 : ℝ) ≤ 500)]
    norm_num [ikTest]
  have hr3 : reach_r ikTest 25 0 0 = 5 := by
    rw [reach_r]
    rw [show ((25 : ℝ) ^ 2 + 0 ^ 2) = 25 ^ 2 by norm_num,
        Real.sqrt_sq (by norm_num : (0 : ℝ) ≤ 25)]
    rw [show ((25 : ℝ) - ikTest.L1) ^ 2 + 0 ^ 2 = 5 ^ 2 by norm_num [ikTest],
        Real.sqrt_sq (by norm_num : (0 : ℝ) ≤ 5)]
  refine ⟨fun ik x y z _ _ => solveFails_iff ik x y z, solve_error_fields, ?_, ?_, ?_⟩
  · have hok : ¬ ikTest.solveFails 100 0 (-80) := by
      rw [solveFails_iff]
      push_neg
      rw [hr1]
      constructor
      · rw [show |ikTest.L2 - ikTest.L3| = 20 by norm_num [ikTest]]
        exact (Real.le_sqrt (by norm_num) (by norm_num)).mpr (by norm_num)
      · rw [show ikTest.L2 + ikTest.L3 = 140 by norm_num [ikTest]]
        exact (Real.sqrt_le_left (by norm_num)).mpr (by norm_num)
    cases hsolve : ikTest.solve 100 0 (-80) with
    | error e => exact absurd ⟨e, hsolve⟩ hok
    | ok t =>
      refine ⟨t.1, t.2.1, t.2.2, rfl, ?_⟩
      rw [solve_ok_fst ikTest 100 0 (-80) t hsolve]
      rw [atan2, if_pos (by norm_num : (0 : ℝ) < 100)]
      rw [show (0 : ℝ) / 100 = 0 by norm_num, Real.arctan_zero]
      rw [degrees]
      norm_num
  · rw [solveFails_iff]
    right
    rw [hr2, show ikTest.L2 + ikTest.L3 = 140 by norm_num [ikTest]]
    exact (Real.lt_sqrt (by norm_num)).mpr (by norm_num)
  · rw [solveFails_iff]
    left
    rw [hr3, show |ikTest.L2 - ikTest.L3| = 20 by norm_num [ikTest]]
    norm_num

/-- C1 witness: the reachability characterization instantiated at geometry
`(30, 60, 80)` and target `(100, 0, -80)`, plus the concrete failure at
`(500, 0, -80)`. -/
theorem C1_solve_unreachable_iff_witness :
    (ikTest.solveFails 100 0 (-80) ↔
      reach_r ikTest 100 0 (-80) < |ikTest.L2 - ikTest.L3| ∨
        ikTest.L2 + ikTest.L3 < reach_r ikTest 100 0 (-80)) ∧
    ikTest.solveFails 500 0 (-80) :=
  ⟨C1_solve_unreachable_iff.1 ikTest 100 0 (-80) (by norm_num [ikTest]) (by norm_num [ikTest]),
   C1_solve_unreachable_iff.2.2.2.1⟩

/-- C2 (bug evidence): with the `GaitEngine()` constructor defaults
(`step_height=30`, so `lift_angle=15`), at `t=0` in wave mode leg 1 is mid-swing
and `joint_angles_for_time` returns a tibia angle `180 + sin(pi/3)*7.5 > 180`,
violating the claimed (and repo-tested) clamp of all joint angles to `[0, 180]`. -/
theorem C2_gait_tibia_exceeds_180 :
    ∃ cx f tb, (joint_angles_for_time gTest 0 "wave")[1]? = some (cx, f, tb) ∧ 180 < tb := by
  have hentry : (joint_angles_for_time gTest 0 "wave")[1]? =
      some (leg_angles gTest 0 "wave" 1) := by
    rw [joint_angles_for_time, List.getElem?_map, List.getElem?_range (by norm_num)]
    rfl
  refine ⟨(leg_angles gTest 0 "wave" 1).1, (leg_angles gTest 0 "wave" 1).2.1,
    (leg_angles gTest 0 "wave" 1).2.2, by rw [hentry], ?_⟩
  have hphase : phase_for_leg 1 "wave" = 1 / 6 := by
    rw [phase_for_leg, if_neg (by decide : ¬("wave" = "tripod")), if_pos rfl]
    norm_num
  have hlocal : Int.fract ((0 : ℝ) / gTest.cycle_time + phase_for_leg 1 "wave") = 1 / 6 := by
    rw [hphase, show gTest.cycle_time = 1 from rfl,
        show (0 : ℝ) / 1 + 1 / 6 = 1 / 6 by norm_num]
    exact Int.fract_eq_self.mpr ⟨by norm_num, by norm_num⟩
  have hlift : lift_angle gTest = 15 := by
    rw [lift_angle, show gTest.step_height = 30 from rfl]
    norm_num
  have hsin : 0 < Real.sin (1 / 6 * 2 * Real.pi) := by
    rw [show (1 : ℝ) / 6 * 2 = 1 / 3 by norm_num]
    apply Real.sin_pos_of_pos_of_lt_pi
    · positivity
    · nlinarith [Real.pi_pos]
  simp only [leg_angles, hlocal, hlift]
  simp only [if_pos (by norm_num : (1 : ℝ) / 6 < 0.5)]
  nlinarith [hsin]

theorem servo_triple_standing (c : Controller) (hrun : c.running = false) (leg : ℕ) :
    servo_triple c leg = ((90 + c.body_yaw) + c.heading + c.body_yaw,
      (standing_leg c leg).2.1, (standing_leg c leg).2.2) := by
  simp only [servo_triple, hrun]
  simp [standing_leg_fst]

/-- C3 counterexample: with `heading = 10` and `body_yaw = 0`, the coxa angle
`update_servos` actually sends while standing is `100`, not `90 + body_yaw = 90`:
`update_servos` adds `heading + body_yaw` on top of the standing pose's
`90 + body_yaw` coxa. -/
theorem C3_standing_coxa_counterexample :
    (update_servos ctrlStand)[0]? =
      some (100, (standing_leg ctrlStand 0).2.1, (standing_leg ctrlStand 0).2.2) ∧
    (100 : ℝ) ≠ 90 + ctrlStand.body_yaw := by
  refine ⟨?_, by norm_num [ctrlStand]⟩
  rw [update_servos_getElem ctrlStand 0 (by norm_num),
      servo_triple_standing ctrlStand rfl 0]
  norm_num [ctrlStand]

/-- C3 amended: while standing (`running = false`), the coxa component of every
triple `update_servos` sends equals `90 + heading + 2*body_yaw` — the standing
pose sets `90 + body_yaw` and `update_servos` adds `heading + body_yaw` again. -/
theorem C3_standing_coxa (c : Controller) (hrun : c.running = false)
    (leg : ℕ) (hleg : leg < 6) :
    ∃ f tb, (update_servos c)[leg]? = some (90 + c.heading + 2 * c.body_yaw, f, tb) := by
  refine ⟨(standing_leg c leg).2.1, (standing_leg c leg).2.2, ?_⟩
  rw [update_servos_getElem c leg hleg, servo_triple_standing c hrun leg]
  rw [show (90 + c.body_yaw) + c.heading + c.body_yaw =
      90 + c.heading + 2 * c.body_yaw by ring]

/-- C3 witness: the amended standing-coxa formula instantiated at a concrete
standing controller and leg 1. -/
theorem C3_standing_coxa_witness :
    ∃ f tb, (update_servos ctrlStand)[1]? =
      some (90 + ctrlStand.heading + 2 * ctrlStand.body_yaw, f, tb) :=
  C3_standing_coxa ctrlStand rfl 1 (by norm_num)

/-- C4 counterexample: when exactly the write for leg 0, joint 0 raises, the
writes for leg 0's joints 1 and 2 are not attempted — the source's `try` wraps
the whole leg, so the remaining 17 writes are not all attempted. -/
theorem C4_joint_write_skipped :
    ((List.range 6).all fun l => (List.range 3).all fun j =>
      failOne l j == (l == 0 && j == 0)) = true ∧
    (0, 1, joint_angle ctrlStand 0 1) ∉ servo_writes ctrlStand failOne ∧
    (0, 1, joint_angle ctrlStand 0 1) ∈ servo_writes ctrlStand (fun _ _ => false) := by
  refine ⟨by decide, ?_, (mem_servo_writes ctrlStand _ 0 1).mpr (by decide)⟩
  intro hv
  exact absurd ((mem_servo_writes ctrlStand failOne 0 1).mp hv) (by decide)

/-- C4 amended: if the servo sink raises on exactly one `(leg, joint)` write
during an `update_servos` tick, the error is contained: every write of the five
other legs is still attempted with the same angle values as in the failure-free
run, while within the failing leg exactly the joints up to the failing one are
attempted; the failure-free run attempts all 18 writes with those same values. -/
theorem C4_fanout_isolation (c : Controller) (fail : ℕ → ℕ → Bool) (l0 j0 : ℕ)
    (hl0 : l0 < 6) (hj0 : j0 < 3)
    (hiff : ∀ l, l < 6 → ∀ j, j < 3 → (fail l j = true ↔ l = l0 ∧ j = j0)) :
    (∀ l j, l < 6 → j < 3 → l ≠ l0 → (l, j, joint_angle c l j) ∈ servo_writes c fail) ∧
    (∀ j, j < 3 → ((l0, j, joint_angle c l0 j) ∈ servo_writes c fail ↔ j ≤ j0)) ∧
    (∀ l j, l < 6 → j < 3 →
      (l, j, joint_angle c l j) ∈ servo_writes c (fun _ _ => false)) := by
  have hfalse : ∀ l, l < 6 → ∀ j, j < 3 → ¬(l = l0 ∧ j = j0) → fail l j = false := by
    intro l hl j hj hne
    cases hfa : fail l j
    · rfl
    · exact absurd ((hiff l hl j hj).mp hfa) hne
  refine ⟨?_, ?_, ?_⟩
  · intro l j hl hj hne
    rw [mem_servo_writes, mem_attempted_pairs]
    have h0 : fail l 0 = false := hfalse l hl 0 (by norm_num) (fun hc => hne hc.1)
    have h1 : fail l 1 = false := hfalse l hl 1 (by norm_num) (fun hc => hne hc.1)
    refine ⟨hl, ?_⟩
    interval_cases j <;> tauto
  · intro j hj
    rw [mem_servo_writes, mem_attempted_pairs]
    interval_cases j0
    · have h0 : fail l0 0 = true := (hiff l0 hl0 0 (by norm_num)).mpr ⟨rfl, rfl⟩
      constructor
      · rintro ⟨-, hj0 | ⟨-, hf⟩ | ⟨-, hf, -⟩⟩
        · omega
        · rw [h0] at hf
          exact absurd hf (by norm_num)
        · rw [h0] at hf
          exact absurd hf (by norm_num)
      · intro hle
        exact ⟨hl0, Or.inl (by omega)⟩
    · have h0 : fail l0 0 = false := hfalse l0 hl0 0 (by norm_num) (by omega)
      have h1 : fail l0 1 = true := (hiff l0 hl0 1 (by norm_num)).mpr ⟨rfl, rfl⟩
      constructor
      · rintro ⟨-, hj0 | ⟨hj1, -⟩ | ⟨-, -, hf⟩⟩
        · omega
        · omega
        · rw [h1] at hf
          exact absurd hf (by norm_num)
      · intro hle
        interval_cases j
        · exact ⟨hl0, Or.inl rfl⟩
        · exact ⟨hl0, Or.inr (Or.inl ⟨rfl, h0⟩)⟩
    · have h0 : fail l0 0 = false := hfalse l0 hl0 0 (by norm_num) (by omega)
      have h1 : fail l0 1 = false := hfalse l0 hl0 1 (by norm_num) (by omega)
      constructor
      · intro
        omega
      · intro
        refine ⟨hl0, ?_⟩
        interval_cases j <;> tauto
  · intro l j hl hj
    rw [mem_servo_writes, mem_attempted_pairs]
    refine ⟨hl, ?_⟩
    interval_cases j <;> simp

/-- C4 witness: isolation with the concrete failure at leg 0, joint 0 — leg 1's
first write is attempted, and leg 0's own joint-0 write is the boundary case. -/
theorem C4_fanout_isolation_witness :
    ((1, 0, joint_angle ctrlStand 1 0) ∈ servo_writes ctrlStand failOne) ∧
    (((0, 0, joint_angle ctrlStand 0 0) ∈ servo_writes ctrlStand failOne) ↔ 0 ≤ 0) :=
  ⟨(C4_fanout_isolation ctrlStand failOne 0 0 (by norm_num) (by norm_num) (by decide)).1
      1 0 (by norm_num) (by norm_num) (by norm_num),
   (C4_fanout_isolation ctrlStand failOne 0 0 (by norm_num) (by norm_num) (by decide)).2.1
      0 (by norm_num)⟩

/-- C5: in `calculate_standing_pose`, changing the mount point of leg `i` (the only
per-leg input, hence the only way one leg's IK target can be forced out of reach)
leaves every other leg's triple unchanged, and a leg whose IK solve raises
`Unreachable` gets exactly the fixed fallback triple `(90 + body_yaw, 70, 90)`; the
failure is absorbed inside the per-leg loop, so no exception escapes. -/
theorem C5_standing_pose_isolation (c : Controller) (i : ℕ) (m : ℝ × ℝ) :
    (∀ j, j < 6 → j ≠ i →
      (calculate_standing_pose
        { c with mounts := fun l => if l = i then m else c.mounts l })[j]? =
      (calculate_standing_pose c)[j]?) ∧
    (c.ik.solveFails (stance_width c i) 0 (-(vertical_drop c i)) → i < 6 →
      (calculate_standing_pose c)[i]? = some (90 + c.body_yaw, 70, 90)) := by
  constructor
  · intro j hj hji
    rw [calculate_standing_pose_getElem _ j hj, calculate_standing_pose_getElem c j hj]
    unfold standing_leg stance_width leg_horizontal vertical_drop usable_reach
    simp [hji]
  · rintro ⟨e, he⟩ hi
    rw [calculate_standing_pose_getElem c i hi]
    unfold standing_leg
    rw [he]

/-- C5 witness: with geometry `(20, 60, 40)`, `body_height = 30` and
`leg_spread = 150`, leg 0's standing target is out of reach; its pose entry is the
fallback `(90, 70, 90)`, and perturbing leg 0's mount leaves leg 1 unchanged. -/
theorem C5_standing_pose_isolation_witness :
    (calculate_standing_pose
      { ctrlUnreach with mounts := fun l => if l = 0 then ((5 : ℝ), (7 : ℝ))
          else ctrlUnreach.mounts l })[1]? = (calculate_standing_pose ctrlUnreach)[1]? ∧
    (calculate_standing_pose ctrlUnreach)[0]? =
      some (90 + ctrlUnreach.body_yaw, 70, 90) := by
  have husable : usable_reach ctrlUnreach = 85 := by
    norm_num [usable_reach, ctrlUnreach]
  have hvd : vertical_drop ctrlUnreach 0 = 40 := by
    simp only [vertical_drop, husable]
    norm_num [ctrlUnreach, ground_level, radians]
  have hlh : leg_horizontal ctrlUnreach 0 = 75 := by
    rw [leg_horizontal, husable, hvd, if_neg (by norm_num)]
    rw [show (85 : ℝ) ^ 2 - 40 ^ 2 = 75 ^ 2 by norm_num,
        Real.sqrt_sq (by norm_num : (0 : ℝ) ≤ 75)]
  have hsw : stance_width ctrlUnreach 0 = 132.5 := by
    rw [stance_width, hlh]
    norm_num [ctrlUnreach]
  have hfail : ctrlUnreach.ik.solveFails (stance_width ctrlUnreach 0) 0
      (-(vertical_drop ctrlUnreach 0)) := by
    rw [hsw, hvd, solveFails_iff]
    right
    have hr : reach_r ctrlUnreach.ik 132.5 0 (-40) = Real.sqrt 14256.25 := by
      rw [reach_r]
      rw [show ((132.5 : ℝ) ^ 2 + 0 ^ 2) = 132.5 ^ 2 by norm_num,
          Real.sqrt_sq (by norm_num : (0 : ℝ) ≤ 132.5)]
      norm_num [ctrlUnreach]
    rw [hr, show ctrlUnreach.ik.L2 + ctrlUnreach.ik.L3 = 100 by norm_num [ctrlUnreach]]
    exact (Real.lt_sqrt (by norm_num)).mpr (by norm_num)
  exact ⟨(C5_standing_pose_isolation ctrlUnreach 0 (5, 7)).1 1 (by norm_num) (by norm_num),
    (C5_standing_pose_isolation ctrlUnreach 0 (5, 7)).2 hfail (by norm_num)⟩

/-- C6: `joint_angles_for_time` is exactly periodic in `cycle_time`: the per-leg
phase is `frac(t/cycle_time + offset)`, and adding one cycle adds exactly 1 inside
the `frac`. (In the degenerate `cycle_time = 0` model the shift itself is 0.) -/
theorem C6_gait_periodicity (g : GaitEngine) (t : ℝ) (mode : String) :
    joint_angles_for_time g (t + g.cycle_time) mode = joint_angles_for_time g t mode := by
  unfold joint_angles_for_time
  apply List.map_congr_left
  intro leg _
  by_cases hct : g.cycle_time = 0
  · rw [hct, add_zero]
  · have key : (t + g.cycle_time) / g.cycle_time + phase_for_leg leg mode =
        t / g.cycle_time + phase_for_leg leg mode + 1 := by
      field_simp
      ring
    simp only [leg_angles]
    rw [key, Int.fract_add_one]

theorem turn_modifier_right (g : GaitEngine) (leg : ℕ) (hleg : leg < 3)
    (h0 : 0 ≤ g.turn_rate) (h1 : g.turn_rate ≤ 1) :
    turn_modifier g leg = 1 - g.turn_rate * 0.8 := by
  simp only [turn_modifier]
  rw [if_pos (by omega : leg = 0 ∨ leg = 1 ∨ leg = 2)]
  rw [min_eq_right (by nlinarith), max_eq_right (by nlinarith)]

theorem turn_modifier_left (g : GaitEngine) (leg : ℕ) (hleg3 : 3 ≤ leg)
    (h0 : 0 ≤ g.turn_rate) (h1 : g.turn_rate ≤ 1) :
    turn_modifier g leg = 1 + g.turn_rate * 0.8 := by
  simp only [turn_modifier]
  rw [if_neg (by omega : ¬(leg = 0 ∨ leg = 1 ∨ leg = 2))]
  rw [min_eq_right (by nlinarith), max_eq_right (by nlinarith)]

/-- C7: for fixed step parameters, as `turn_rate` increases within `[0, 1]` the
swing amplitude `base_swing_angle * turn_modifier` strictly decreases on every
right leg (0,1,2) and strictly increases on every left leg (3,4,5); on this
interval the `[0.1, 2.0]` clamp never binds, so the modifiers are exactly
`1 - turn_rate*0.8` and `1 + turn_rate*0.8`. -/
theorem C7_steering_monotonic (sh sl ct tr tr2 : ℝ) (leg : ℕ)
    (h0 : 0 ≤ tr) (h12 : tr < tr2) (h1 : tr2 ≤ 1) :
    (leg < 3 →
      turn_modifier ⟨sh, sl, ct, tr⟩ leg = 1 - tr * 0.8 ∧
      swing_amplitude ⟨sh, sl, ct, tr2⟩ leg < swing_amplitude ⟨sh, sl, ct, tr⟩ leg) ∧
    (3 ≤ leg → leg < 6 →
      turn_modifier ⟨sh, sl, ct, tr⟩ leg = 1 + tr * 0.8 ∧
      swing_amplitude ⟨sh, sl, ct, tr⟩ leg < swing_amplitude ⟨sh, sl, ct, tr2⟩ leg) := by
  have hbase : base_swing_angle ⟨sh, sl, ct, tr2⟩ = base_swing_angle ⟨sh, sl, ct, tr⟩ := rfl
  have hbpos : 0 < base_swing_angle ⟨sh, sl, ct, tr⟩ :=
    lt_of_lt_of_le (by norm_num) (le_max_left _ _)
  constructor
  · intro hleg
    have e1 : turn_modifier ⟨sh, sl, ct, tr⟩ leg = 1 - tr * 0.8 :=
      turn_modifier_right _ leg hleg h0 (by linarith)
    have e2 : turn_modifier ⟨sh, sl, ct, tr2⟩ leg = 1 - tr2 * 0.8 :=
      turn_modifier_right _ leg hleg (by linarith) h1
    refine ⟨e1, ?_⟩
    rw [swing_amplitude, swing_amplitude, e1, e2, hbase]
    apply mul_lt_mul_of_pos_left (by nlinarith) hbpos
  · intro hleg3 _
    have e1 : turn_modifier ⟨sh, sl, ct, tr⟩ leg = 1 + tr * 0.8 :=
      turn_modifier_left _ leg hleg3 h0 (by linarith)
    have e2 : turn_modifier ⟨sh, sl, ct, tr2⟩ leg = 1 + tr2 * 0.8 :=
      turn_modifier_left _ leg hleg3 (by linarith) h1
    refine ⟨e1, ?_⟩
    rw [swing_amplitude, swing_amplitude, e1, e2, hbase]
    apply mul_lt_mul_of_pos_left (by nlinarith) hbpos

/-- C7 witness: steering monotonicity and the unclamped modifier formulas at
`turn_rate` 0 vs 1, for right leg 0 and left leg 3. -/
theorem C7_steering_monotonic_witness :
    (turn_modifier ⟨30, 40, 1, 0⟩ 0 = 1 - 0 * 0.8 ∧
      swing_amplitude ⟨30, 40, 1, 1⟩ 0 < swing_amplitude ⟨30, 40, 1, 0⟩ 0) ∧
    (turn_modifier ⟨30, 40, 1, 0⟩ 3 = 1 + 0 * 0.8 ∧
      swing_amplitude ⟨30, 40, 1, 0⟩ 3 < swing_amplitude ⟨30, 40, 1, 1⟩ 3) :=
  ⟨(C7_steering_monotonic 30 40 1 0 1 0 (by norm_num) (by norm_num) (by norm_num)).1
      (by norm_num),
   (C7_steering_monotonic 30 40 1 0 1 3 (by norm_num) (by norm_num) (by norm_num)).2
      (by norm_num) (by norm_num)⟩

/-- C8: `joint_angles_for_time` always returns exactly 6 triples, for every mode
string; for any mode other than tripod/wave/ripple, `_phase_for_leg` returns phase
offset `0.0` for every leg, and all legs of each side produce identical triples. -/
theorem C8_six_legs_unknown_mode :
    (∀ (g : GaitEngine) (t : ℝ) (mode : String),
      (joint_angles_for_time g t mode).length = 6) ∧
    (∀ mode : String, mode ≠ "tripod" → mode ≠ "wave" → mode ≠ "ripple" →
      (∀ leg, phase_for_leg leg mode = 0) ∧
      (∀ (g : GaitEngine) (t : ℝ) (i j : ℕ), i < 3 → j < 3 →
        leg_angles g t mode i = leg_angles g t mode j) ∧
      (∀ (g : GaitEngine) (t : ℝ) (i j : ℕ), 3 ≤ i → i < 6 → 3 ≤ j → j < 6 →
        leg_angles g t mode i = leg_angles g t mode j)) := by
  constructor
  · intro g t mode
    simp [joint_angles_for_time]
  · intro mode h1 h2 h3
    have hph : ∀ leg, phase_for_leg leg mode = 0 := by
      intro leg
      rw [phase_for_leg, if_neg h1, if_neg h2, if_neg h3]
    refine ⟨hph, ?_, ?_⟩
    · intro g t i j hi hj
      have htm : turn_modifier g i = turn_modifier g j := by
        simp only [turn_modifier]
        rw [if_pos (by omega : i = 0 ∨ i = 1 ∨ i = 2),
            if_pos (by omega : j = 0 ∨ j = 1 ∨ j = 2)]
      have hsa : swing_amplitude g i = swing_amplitude g j := by
        rw [swing_amplitude, swing_amplitude, htm]
      simp only [leg_angles, hph i, hph j, hsa]
    · intro g t i j hi3 hi6 hj3 hj6
      have htm : turn_modifier g i = turn_modifier g j := by
        simp only [turn_modifier]
        rw [if_neg (by omega : ¬(i = 0 ∨ i = 1 ∨ i = 2)),
            if_neg (by omega : ¬(j = 0 ∨ j = 1 ∨ j = 2))]
      have hsa : swing_amplitude g i = swing_amplitude g j := by
        rw [swing_amplitude, swing_amplitude, htm]
      simp only [leg_angles, hph i, hph j, hsa]

/-- C8 witness: for the unknown mode string "bounce", every phase offset is 0 and
legs within one side produce identical triples. -/
theorem C8_six_legs_unknown_mode_witness :
    phase_for_leg 0 "bounce" = 0 ∧
    leg_angles gTest 0 "bounce" 0 = leg_angles gTest 0 "bounce" 2 ∧
    leg_angles gTest 0 "bounce" 3 = leg_angles gTest 0 "bounce" 5 :=
  ⟨(C8_six_legs_unknown_mode.2 "bounce" (by decide) (by decide) (by decide)).1 0,
   (C8_six_legs_unknown_mode.2 "bounce" (by decide) (by decide) (by decide)).2.1
      gTest 0 0 2 (by norm_num) (by norm_num),
   (C8_six_legs_unknown_mode.2 "bounce" (by decide) (by decide) (by decide)).2.2
      gTest 0 3 5 (by norm_num) (by norm_num) (by norm_num) (by norm_num)⟩

/-- C9 counterexample: the `gait_loop` tick skips normalization entirely when
`rotation_speed = 0` — a pre-existing heading of 500 stays 500, outside
`(-180, 180]`. -/
theorem C9_heading_unnormalized_when_idle :
    tick_heading 500 0 0.1 = 500 ∧
    ¬(-180 < tick_heading 500 0 0.1 ∧ tick_heading 500 0 0.1 ≤ 180) := by
  have h : tick_heading 500 0 0.1 = 500 := by
    rw [tick_heading, if_neg (not_not_intro rfl)]
  refine ⟨h, ?_⟩
  rw [h]
  norm_num

/-- C9 amended: after a `gait_loop` tick with `rotation_speed ≠ 0`, the heading
lies in the closed interval `[-180, 180]` (the loops can stop at exactly -180);
with `rotation_speed = 0` the heading is left untouched. -/
theorem C9_heading_tick_bounds (h rs dt : ℝ) :
    (rs ≠ 0 → -180 ≤ tick_heading h rs dt ∧ tick_heading h rs dt ≤ 180) ∧
    (rs = 0 → tick_heading h rs dt = h) := by
  constructor
  · intro hrs
    rw [tick_heading, if_pos hrs, normalize_heading]
    exact ⟨wrapUp_ge _, wrapUp_le _ (wrapDown_le _)⟩
  · intro hrs
    rw [tick_heading, if_neg (not_not_intro hrs)]

/-- C9 witness: the tick bounds at heading 500 with rotation 1, and the identity
tick at rotation 0. -/
theorem C9_heading_tick_bounds_witness :
    (-180 ≤ tick_heading 500 1 0 ∧ tick_heading 500 1 0 ≤ 180) ∧
    tick_heading 123 0 0.5 = 123 :=
  ⟨(C9_heading_tick_bounds 500 1 0).1 (by norm_num),
   (C9_heading_tick_bounds 123 0 0.5).2 rfl⟩

/-- C10: whenever `10 ≤ 0.95 * usable_reach` (femur+tibia of at least about
12.39 mm), the clamp in `calculate_standing_pose` keeps every leg's
`vertical_drop` strictly below `usable_reach`, so the `0.3 * max_leg_reach`
fallback branch of `leg_horizontal` is unreachable and the `sqrt` branch is
always taken. -/
theorem C10_drop_fallback_unreachable (c : Controller) (leg : ℕ)
    (hgeom : 10 ≤ usable_reach c * 0.95) :
    vertical_drop c leg < usable_reach c ∧
    leg_horizontal c leg =
      Real.sqrt ((usable_reach c) ^ 2 - (vertical_drop c leg) ^ 2) := by
  have hu : 0 < usable_reach c := by nlinarith
  have hvd : vertical_drop c leg ≤ usable_reach c * 0.95 := by
    simp only [vertical_drop]
    exact max_le hgeom (min_le_right _ _)
  have hlt : vertical_drop c leg < usable_reach c := lt_of_le_of_lt hvd (by nlinarith)
  exact ⟨hlt, by rw [leg_horizontal, if_neg (not_le.mpr hlt)]⟩

/-- C10 witness: with the default geometry `(15, 50, 55)`,
`0.95 * usable_reach = 84.7875 ≥ 10`, so the fallback branch is unreachable. -/
theorem C10_drop_fallback_unreachable_witness :
    vertical_drop ctrlStand 0 < usable_reach ctrlStand ∧
    leg_horizontal ctrlStand 0 =
      Real.sqrt ((usable_reach ctrlStand) ^ 2 - (vertical_drop ctrlStand 0) ^ 2) :=
  C10_drop_fallback_unreachable ctrlStand 0 (by norm_num [usable_reach, ctrlStand])

end

end Hexapod
